import Mathlib

/-!
Verification of the Scan2Target job orchestration and delivery subsystem.

Shallow embedding of the Python source:
* `app/core/targets/manager.py` — SMB connection-string parsing and
  `TargetManager.deliver` with its retry/backoff loop;
* `app/core/scanning/manager.py` — the manual multi-page capture loop of
  `ScannerManager._execute_scan` and its delivery phase;
* `app/core/worker.py` — `BackgroundWorker._execute_task`;
* `app/core/jobs/manager.py` — `JobManager.cancel_job`;
* `app/core/jobs/repository.py` and `app/core/database.py` — the job row
  schema and the create/update/get data access.

Pure functions are translated to Lean functions; side effects (sleeps,
file deletion, store writes) are made explicit as returned data.
-/

namespace Scan2Target

/-! ## Job data model (`app/core/jobs/models.py`) -/

/-- `JobStatus` enum from `app/core/jobs/models.py`. -/
inductive JobStatus where
  | queued
  | running
  | completed
  | failed
  | cancelled
deriving DecidableEq, Repr

/-- The string `value` of each `JobStatus` member (it is a `str` enum). -/
def JobStatus.value : JobStatus → String
  | .queued => "queued"
  | .running => "running"
  | .completed => "completed"
  | .failed => "failed"
  | .cancelled => "cancelled"

/-- Python `JobStatus(value)` constructor: looks a status up by its string
value, raising (here: `none`) on an unknown value. -/
def JobStatus.ofValue : String → Option JobStatus
  | "queued" => some .queued
  | "running" => some .running
  | "completed" => some .completed
  | "failed" => some .failed
  | "cancelled" => some .cancelled
  | _ => none

/-- `JobRecord` pydantic model from `app/core/jobs/models.py`.
Timestamps are kept abstract as strings (the code only moves them through
`isoformat`/`fromisoformat`, which are inverse to each other). -/
structure JobRecord where
  id : String
  job_type : String
  device_id : Option String := none
  target_id : Option String := none
  printer_id : Option String := none
  status : JobStatus
  created_at : String := ""
  updated_at : String := ""
  file_path : Option String := none
  message : Option String := none
  thumbnail_path : Option String := none
deriving DecidableEq, Repr

/-! ## Target data model (`app/core/targets/models.py`) -/

/-- `TargetConfig` pydantic model (the free-form `config` dict is not needed
by the verified paths and is omitted). -/
structure TargetConfig where
  id : String
  type : String
  name : String
  enabled : Bool := true
deriving DecidableEq, Repr

/-! ## Python string primitives

The Python code only uses single-character `str.replace`, `str.lstrip`,
`str.split` and `str.join`; they are embedded charwise over `String.data`
so that the kernel can evaluate them. -/

/-- Python `s.replace(c, r)` for one-character `c` and `r`. -/
def pyReplaceChar (c r : Char) (s : List Char) : List Char :=
  s.map (fun x => if x = c then r else x)

/-- Python `s.split(c)` with an explicit one-character separator: keeps empty
fields and yields `[""]` on the empty string. -/
def pySplitChar (c : Char) : List Char → List (List Char)
  | [] => [[]]
  | x :: xs =>
    let rest := pySplitChar c xs
    if x = c then
      [] :: rest
    else
      match rest with
      | [] => [[x]]
      | h :: t => (x :: h) :: t

/-- Python `c.join(parts)` for a one-character separator. -/
def pyJoinChar (c : Char) (parts : List (List Char)) : List Char :=
  List.intercalate [c] parts

/-- Python `sub in s` substring test. -/
def pySubstrIn (pat : List Char) : List Char → Bool
  | [] => pat.isEmpty
  | x :: xs => pat.isPrefixOf (x :: xs) || pySubstrIn pat xs

/-- Python `s.lower()` (charwise). -/
def pyLower (s : List Char) : List Char :=
  s.map Char.toLower

/-! ## SMB connection-string parsing
(`TargetManager._parse_smb_connection`, `app/core/targets/manager.py`) -/

/-- Embeds `TargetManager._parse_smb_connection`: normalize backslashes to
forward slashes, strip leading slashes, split on `/`, and return the
`(server, share_name, path)` triple; `Except.error` models `ValueError`. -/
def parse_smb_connection (connection : String) : Except String (String × String × String) :=
  if connection = "" then
    .error "Connection string is empty"
  else
    let normalized := pyReplaceChar '\\' '/' connection.data
    let normalized := normalized.dropWhile (· = '/')
    let parts := pySplitChar '/' normalized
    if parts.length < 2 then
      .error ("Invalid SMB path format: '" ++ connection ++
        "'. Expected format: //server/share or server/share")
    else
      let server := parts.headD []
      let share_name := (parts.drop 1).headD []
      let path := if parts.length > 2 then pyJoinChar '/' (parts.drop 2) else []
      if server.isEmpty then
        .error "Server name/IP is required"
      else if share_name.isEmpty then
        .error "Share name is required"
      else
        .ok (String.mk server, String.mk share_name, String.mk path)

/-! ## Delivery with retry/backoff (`TargetManager.deliver`,
`app/core/targets/manager.py`)

`deliver` raises on total failure and returns on success.  The side effects
that the claims talk about are made explicit in the result: how many handler
attempts ran, which backoff sleeps were performed (in seconds, in order), and
the final outcome (`Except.error` models the raised exception's message).
The per-protocol handler call inside the `try` block — including the
`raise` for an unsupported target type, which sits inside the same `try` —
is abstracted as `attemptResult : Nat → Except String Unit`, giving the
outcome of the attempt with each zero-based index. -/

/-- Outcome of one `TargetManager.deliver` call. -/
structure DeliverResult where
  attemptsMade : Nat
  sleeps : List Nat
  outcome : Except String Unit
deriving Repr

/-- Python `str(last_error)` where `last_error` starts as `None`. -/
def pyStrOfLastError : Option String → String
  | none => "None"
  | some e => e

/-- The `for attempt in range(max_retries)` loop of `TargetManager.deliver`.
`attempt` is the zero-based index of the next attempt, `remaining` the number
of loop iterations left, `lastError` the `last_error` variable.  When the
loop exhausts, the aggregate error is raised. -/
def deliverLoop (name : String) (attemptResult : Nat → Except String Unit)
    (maxRetries : Nat) (attempt : Nat) (lastError : Option String) :
    (remaining : Nat) → DeliverResult
  | 0 =>
    ⟨attempt, [], .error ("Delivery to " ++ name ++ " failed after " ++
      toString maxRetries ++ " attempts: " ++ pyStrOfLastError lastError)⟩
  | remaining + 1 =>
    match attemptResult attempt with
    | .ok _ => ⟨attempt + 1, [], .ok ()⟩
    | .error e =>
      let rest := deliverLoop name attemptResult maxRetries (attempt + 1) (some e) remaining
      if attempt < maxRetries - 1 then
        ⟨rest.attemptsMade, 2 ^ attempt :: rest.sleeps, rest.outcome⟩
      else
        ⟨rest.attemptsMade, rest.sleeps, rest.outcome⟩

/-- Embeds `TargetManager.deliver`: look the target up, fail hard when it is
absent or disabled, fail hard when the file is missing, otherwise run the
retry loop. -/
def deliver (targetId : String) (repoGet : Option TargetConfig)
    (filePath : String) (fileExists : Bool)
    (attemptResult : Nat → Except String Unit) (maxRetries : Nat := 3) :
    DeliverResult :=
  match repoGet with
  | none => ⟨0, [], .error ("Target " ++ targetId ++ " not found or disabled")⟩
  | some target =>
    if target.enabled = false then
      ⟨0, [], .error ("Target " ++ targetId ++ " not found or disabled")⟩
    else if fileExists = false then
      ⟨0, [], .error ("File " ++ filePath ++ " not found")⟩
    else
      deliverLoop target.name attemptResult maxRetries 0 none maxRetries

/-! ## Delivery phase of a scan job
(`ScannerManager._execute_scan`, `app/core/scanning/manager.py`, the
`try: TargetManager().deliver(...)` block at the end of the function)

After capture succeeded, the code calls `deliver` inside a `try`.  On
success it sets the job to `completed` with `message = None` and deletes the
local artifact; on any delivery exception it sets the job to `completed`
with `message = "Upload failed: " + str(e)`, keeps the file, and does not
re-raise. -/

/-- Result of the delivery phase: the updated job record and whether the
local artifact file was deleted. -/
def scanDeliveryPhase (job : JobRecord) (deliverOutcome : Except String Unit) :
    JobRecord × Bool :=
  match deliverOutcome with
  | .ok _ => ({ job with status := .completed, message := none }, true)
  | .error e =>
    ({ job with status := .completed, message := some ("Upload failed: " ++ e) }, false)

/-! ## Manual multi-page capture loop
(`ScannerManager._execute_scan`, `app/core/scanning/manager.py`, the
`while True:` branch taken when the profile is not batch-with-ADF-source)

One `scanimage` invocation either finishes with an exit code, a stderr text
and an output file size (the output file always exists because the code
opens it for writing before spawning the process), or times out
(`subprocess.TimeoutExpired`).  The device's behavior on each page is
abstracted as `outcome : Nat → CaptureOutcome`, indexed by `page_num`. -/

/-- Result of one single-page `scanimage` run. -/
inductive CaptureOutcome where
  | finished (returncode : Int) (stderr : String) (fileSize : Nat)
  | timeout
deriving Repr

/-- The `adf_empty_indicators` list from `_execute_scan`. -/
def adf_empty_indicators : List String :=
  ["out of documents",
   "no documents",
   "document feeder is empty",
   "adf empty",
   "no more pages",
   "end of document",
   "error during device i/o",
   "device i/o error"]

/-- `any(indicator in error_msg.lower() for indicator in adf_empty_indicators)`. -/
def isAdfEmptyMsg (errorMsg : String) : Bool :=
  adf_empty_indicators.any (fun ind => pySubstrIn ind.data (pyLower errorMsg.data))

/-- Embeds the manual per-page `while True:` loop.  `pageNum` is `page_num`,
`scanned` the list of page numbers whose files are in `scanned_files`.
`Except.ok` is normal loop exit with the kept pages, `Except.error` models a
raised exception aborting the job. -/
def scanLoop (batchScan : Bool) (outcome : Nat → CaptureOutcome)
    (pageNum : Nat) (scanned : List Nat) : Except String (List Nat) :=
  match outcome pageNum with
  | .timeout =>
    if batchScan ∧ pageNum > 1 then .ok scanned
    else .error "Scan timeout"
  | .finished rc stderr size =>
    if rc ≠ 0 then
      if batchScan ∧ isAdfEmptyMsg stderr then
        -- ADF empty: keep a non-empty partially scanned trailing file,
        -- discard an empty one, then leave the loop normally.
        if size > 0 then .ok (scanned ++ [pageNum]) else .ok scanned
      else
        .error ("scanimage failed: " ++ stderr)
    else if size = 0 then
      if batchScan ∧ pageNum > 1 then .ok scanned
      else .error "Scanner returned empty file"
    else
      if batchScan = false then .ok (scanned ++ [pageNum])
      else if pageNum + 1 > 100 then .ok (scanned ++ [pageNum])
      else scanLoop batchScan outcome (pageNum + 1) (scanned ++ [pageNum])
termination_by 101 - pageNum
decreasing_by omega

/-- The capture part of `_execute_scan` for the manual loop path: run the
loop from `page_num = 1` with no pages scanned, then apply the
`if not scanned_files: raise Exception("No pages were scanned successfully")`
check that follows the loop. -/
def capturePhase (batchScan : Bool) (outcome : Nat → CaptureOutcome) :
    Except String (List Nat) :=
  match scanLoop batchScan outcome 1 [] with
  | .ok [] => .error "No pages were scanned successfully"
  | .ok kept => .ok kept
  | .error e => .error e

/-! ## Background worker (`BackgroundWorker._execute_task`,
`app/core/worker.py`)

The job store is modelled as a map from job id to record, the worker's
`self.tasks` dict as the list of its keys.  The submitted unit of work is
abstracted by its outcome: `Except.ok` when the coroutine returns,
`Except.error e` when it raises an exception with message `e`. -/

/-- `JobManager.update_job` as seen through the store: write the record
under its id. -/
def updateStore (jobs : String → Option JobRecord) (j : JobRecord) :
    String → Option JobRecord :=
  fun anId => if anId = j.id then some j else jobs anId

/-- Embeds `BackgroundWorker._execute_task`: flip the job to `running`, run
the unit of work, then set `completed` on return or `failed` plus an
`"Error: ..."` message on exception; in all cases remove the task handle
(`self.tasks.pop(job_id, None)` in the `finally` block).  The function
returns the final store and task list — it never propagates the work's
exception. -/
def executeTask (jobs : String → Option JobRecord) (tasks : List String)
    (jobId : String) (workResult : Except String Unit) :
    (String → Option JobRecord) × List String :=
  let jobs1 :=
    match jobs jobId with
    | some job => updateStore jobs { job with status := .running }
    | none => jobs
  let jobs2 :=
    match workResult with
    | .ok _ =>
      match jobs1 jobId with
      | some job => updateStore jobs1 { job with status := .completed }
      | none => jobs1
    | .error e =>
      match jobs1 jobId with
      | some job =>
        updateStore jobs1 { job with status := .failed, message := some ("Error: " ++ e) }
      | none => jobs1
  (jobs2, tasks.filter (fun k => k ≠ jobId))

/-! ## Job cancellation (`JobManager.cancel_job`,
`app/core/jobs/manager.py`)

The `worker.cancel_task(job_id)` call only touches the in-memory task
handle map and no job field; the job store effect is modelled here. -/

/-- Embeds `JobManager.cancel_job`: returns whether the cancellation was
accepted together with the resulting job store. -/
def cancel_job (jobs : String → Option JobRecord) (jobId : String) :
    Bool × (String → Option JobRecord) :=
  match jobs jobId with
  | none => (false, jobs)
  | some job =>
    if job.status = .queued ∨ job.status = .running then
      (true, updateStore jobs
        { job with status := .cancelled, message := some "Job cancelled by user" })
    else
      (false, jobs)

/-! ## Job persistence (`JobRepository`, `app/core/jobs/repository.py`,
over the `jobs` table schema of `app/core/database.py`)

The `jobs` table columns are exactly: id, job_type, device_id, target_id,
printer_id, status, file_path, message, created_at, updated_at — there is
no `thumbnail_path` column.  Timestamps travel through
`isoformat`/`fromisoformat`, which are mutually inverse and are modelled as
the identity on the stored string. -/

/-- One row of the `jobs` table. -/
structure JobRow where
  id : String
  job_type : String
  device_id : Option String
  target_id : Option String
  printer_id : Option String
  status : String
  file_path : Option String
  message : Option String
  created_at : String
  updated_at : String
deriving DecidableEq, Repr

/-- `JobRepository.create`: the INSERT statement's column list. -/
def JobRepository.create (job : JobRecord) : JobRow :=
  { id := job.id
    job_type := job.job_type
    device_id := job.device_id
    target_id := job.target_id
    printer_id := job.printer_id
    status := job.status.value
    file_path := job.file_path
    message := job.message
    created_at := job.created_at
    updated_at := job.updated_at }

/-- `JobRepository.update` on a row matched by the WHERE clause: the UPDATE
statement sets only status, file_path, message and updated_at (the latter to
the current time, passed in as `now`). -/
def JobRepository.update (row : JobRow) (job : JobRecord) (now : String) : JobRow :=
  if row.id = job.id then
    { row with
      status := job.status.value
      file_path := job.file_path
      message := job.message
      updated_at := now }
  else
    row

/-- `JobRepository.get` on a fetched row: rebuild the `JobRecord` from the
columns.  The constructor call passes no `thumbnail_path`, so the pydantic
default `None` applies; an unknown status value makes `JobStatus(...)`
raise, modelled as `none`. -/
def JobRepository.get (row : JobRow) : Option JobRecord :=
  match JobStatus.ofValue row.status with
  | none => none
  | some st =>
    some
      { id := row.id
        job_type := row.job_type
        device_id := row.device_id
        target_id := row.target_id
        printer_id := row.printer_id
        status := st
        created_at := row.created_at
        updated_at := row.updated_at
        file_path := row.file_path
        message := row.message }

/-! ## Concrete fixtures used by witnesses and counterexamples -/

/-- A configured, enabled SMB target. -/
def sampleTargetEnabled : TargetConfig :=
  { id := "tgt-1", type := "SMB", name := "Office NAS", enabled := true }

/-- The same target with `enabled = False`. -/
def sampleTargetDisabled : TargetConfig :=
  { id := "tgt-1", type := "SMB", name := "Office NAS", enabled := false }

/-- A scan job whose capture already produced an artifact. -/
def sampleJob : JobRecord :=
  { id := "job-1", job_type := "scan", device_id := some "dev-1",
    target_id := some "tgt-1", status := .running,
    created_at := "2026-01-01T00:00:00", updated_at := "2026-01-01T00:00:00",
    file_path := some "/tmp/scan2target/scans/scan_job-1.pdf" }

/-- A job store holding exactly `sampleJob`. -/
def sampleStore : String → Option JobRecord :=
  fun anId => if anId = "job-1" then some sampleJob else none

/-- Handler behavior where every delivery attempt raises. -/
def alwaysFailAttempts : Nat → Except String Unit :=
  fun _ => .error "NT_STATUS_HOST_UNREACHABLE"

/-- Handler behavior where every delivery attempt succeeds. -/
def alwaysOkAttempts : Nat → Except String Unit :=
  fun _ => .ok ()

/-- Device behavior: page 1 scans fine, page 2 fails with a recognized
feeder-empty message after a non-empty partial file was written. -/
def adfPartialTrailOutcome : Nat → CaptureOutcome
  | 1 => .finished 0 "" 1000
  | _ => .finished 1 "scanimage: Error during device I/O" 512

/-- Device behavior: pages 1–3 scan fine, page 4 fails with a recognized
feeder-empty message and an empty output file. -/
def adfCleanRunOutcome : Nat → CaptureOutcome
  | 1 | 2 | 3 => .finished 0 "" 1000
  | _ => .finished 1 "scanimage: sane_start: Document feeder out of documents" 0

/-- Device behavior: page 1 scans fine, every later page reports success
with a zero-byte output file. -/
def emptyAfterOnePageOutcome : Nat → CaptureOutcome
  | 1 => .finished 0 "" 700
  | _ => .finished 0 "" 0

/-- Device behavior: every page scans fine with non-empty output. -/
def alwaysGoodPageOutcome : Nat → CaptureOutcome :=
  fun _ => .finished 0 "" 800

/-- A completed scan job carrying a thumbnail path, as `_execute_scan`
builds one right before calling `update_job`. -/
def thumbJob : JobRecord :=
  { sampleJob with
      status := .completed
      thumbnail_path := some "/tmp/scan2target/scans/scan_job-1_thumb.jpg" }

end Scan2Target

namespace Scan2Target

/-- Claim C8: The connection strings `//host/share/sub`, `\\host\share\sub` and
`host/share/sub` are all accepted by the SMB path parser and all yield the
same canonical triple `(server = "host", share = "share", path = "sub")`. -/
theorem smb_parse_canonical_triple :
    parse_smb_connection "//host/share/sub" = .ok ("host", "share", "sub") ∧
    parse_smb_connection "\\\\host\\share\\sub" = .ok ("host", "share", "sub") ∧
    parse_smb_connection "host/share/sub" = .ok ("host", "share", "sub") := by
  refine ⟨?_, ?_, ?_⟩ <;> rfl

/-- Claim C1, counterexample: delivering a completed capture to a disabled
target does fail with zero attempts and zero sleeps, but the surrounding
scan pipeline marks the job `completed` (with an `"Upload failed: ..."`
message), not `failed` as the claim states — shown here at a concrete
disabled target. -/
theorem disabled_target_job_not_failed_cex :
    (deliver "tgt-1" (some sampleTargetDisabled) "/tmp/scan2target/scans/scan_job-1.pdf"
        true alwaysOkAttempts 3).attemptsMade = 0 ∧
    (deliver "tgt-1" (some sampleTargetDisabled) "/tmp/scan2target/scans/scan_job-1.pdf"
        true alwaysOkAttempts 3).sleeps = [] ∧
    (scanDeliveryPhase sampleJob
        (deliver "tgt-1" (some sampleTargetDisabled) "/tmp/scan2target/scans/scan_job-1.pdf"
          true alwaysOkAttempts 3).outcome).1.status = JobStatus.completed ∧
    JobStatus.completed ≠ JobStatus.failed := by
  refine ⟨rfl, rfl, rfl, by decide⟩

/-- Claim C1 (amended): when the target record is absent or its enabled flag
is false, `deliver` raises immediately — zero handler attempts, zero retry
sleeps, error message naming the target as not found or disabled — and the
scan pipeline then marks the job `completed` (capture succeeded) with the
message `"Upload failed: Target <id> not found or disabled"`, keeping the
local artifact. -/
theorem disabled_target_immediate_failure
    (targetId filePath : String) (repoGet : Option TargetConfig)
    (fileExists : Bool) (attemptResult : Nat → Except String Unit)
    (maxRetries : Nat) (job : JobRecord)
    (hdis : repoGet = none ∨ ∃ t, repoGet = some t ∧ t.enabled = false) :
    deliver targetId repoGet filePath fileExists attemptResult maxRetries =
      ⟨0, [], .error ("Target " ++ targetId ++ " not found or disabled")⟩ ∧
    scanDeliveryPhase job
        (deliver targetId repoGet filePath fileExists attemptResult maxRetries).outcome =
      ({ job with
          status := .completed
          message := some ("Upload failed: " ++
            ("Target " ++ targetId ++ " not found or disabled")) }, false) := by
  rcases hdis with h | ⟨t, h, ht⟩ <;> subst h
  · simp [deliver, scanDeliveryPhase]
  · simp [deliver, scanDeliveryPhase, ht]

/-- Claim C1, witness: the amended statement evaluated at the concrete
disabled target of the counterexample. -/
theorem disabled_target_immediate_failure_witness :
    deliver "tgt-1" (some sampleTargetDisabled) "/tmp/scan2target/scans/scan_job-1.pdf"
        true alwaysOkAttempts 3 =
      ⟨0, [], .error "Target tgt-1 not found or disabled"⟩ ∧
    scanDeliveryPhase sampleJob
        (deliver "tgt-1" (some sampleTargetDisabled) "/tmp/scan2target/scans/scan_job-1.pdf"
          true alwaysOkAttempts 3).outcome =
      ({ sampleJob with
          status := .completed
          message := some "Upload failed: Target tgt-1 not found or disabled" }, false) :=
  disabled_target_immediate_failure "tgt-1" "/tmp/scan2target/scans/scan_job-1.pdf"
    (some sampleTargetDisabled) true alwaysOkAttempts 3 sampleJob
    (Or.inr ⟨sampleTargetDisabled, rfl, rfl⟩)

/-- Claim C2: with `max_retries = 3` and every attempt failing, `deliver`
makes exactly three attempts, sleeps exactly `2^attempt` seconds between
them with `attempt` counted from zero — 1 second between attempts 1 and 2,
2 seconds between attempts 2 and 3 — performs no sleep and no fourth
attempt after the third failure, and raises an aggregate error naming the
target and the last underlying error. -/
theorem deliver_three_failures_retry_schedule
    (targetId filePath : String) (t : TargetConfig) (ht : t.enabled = true)
    (attemptResult : Nat → Except String Unit) (e0 e1 e2 : String)
    (h0 : attemptResult 0 = .error e0) (h1 : attemptResult 1 = .error e1)
    (h2 : attemptResult 2 = .error e2) :
    deliver targetId (some t) filePath true attemptResult 3 =
      ⟨3, [1, 2], .error ("Delivery to " ++ t.name ++ " failed after " ++
        toString 3 ++ " attempts: " ++ e2)⟩ := by
  simp [deliver, ht, deliverLoop, h0, h1, h2, pyStrOfLastError]

/-- Claim C2, witness: the retry schedule at a concrete enabled target whose
every attempt fails with `NT_STATUS_HOST_UNREACHABLE`. -/
theorem deliver_three_failures_retry_schedule_witness :
    deliver "tgt-1" (some sampleTargetEnabled) "/tmp/scan2target/scans/scan_job-1.pdf"
        true alwaysFailAttempts 3 =
      ⟨3, [1, 2],
        .error "Delivery to Office NAS failed after 3 attempts: NT_STATUS_HOST_UNREACHABLE"⟩ :=
  deliver_three_failures_retry_schedule "tgt-1" "/tmp/scan2target/scans/scan_job-1.pdf"
    sampleTargetEnabled rfl alwaysFailAttempts
    "NT_STATUS_HOST_UNREACHABLE" "NT_STATUS_HOST_UNREACHABLE" "NT_STATUS_HOST_UNREACHABLE"
    rfl rfl rfl

/-- Claim C3: when capture produced an artifact and delivery exhausts all
retries, the scan pipeline ends the job `completed` (not `failed`), with a
non-null message containing the target name and the last underlying error,
and does not delete the local artifact. -/
theorem exhausted_retries_job_completed_artifact_kept
    (targetId filePath : String) (t : TargetConfig) (ht : t.enabled = true)
    (attemptResult : Nat → Except String Unit) (e0 e1 e2 : String)
    (h0 : attemptResult 0 = .error e0) (h1 : attemptResult 1 = .error e1)
    (h2 : attemptResult 2 = .error e2) (job : JobRecord) :
    scanDeliveryPhase job
        (deliver targetId (some t) filePath true attemptResult 3).outcome =
      ({ job with
          status := .completed
          message := some ("Upload failed: " ++ ("Delivery to " ++ t.name ++
            " failed after " ++ toString 3 ++ " attempts: " ++ e2)) }, false) := by
  simp [deliver, ht, deliverLoop, h0, h1, h2, pyStrOfLastError, scanDeliveryPhase]

/-- Claim C3, witness: the concrete job `sampleJob` after three failed
delivery attempts to the enabled target — status `completed`, message
holding the target name and the underlying error, artifact kept. -/
theorem exhausted_retries_job_completed_artifact_kept_witness :
    scanDeliveryPhase sampleJob
        (deliver "tgt-1" (some sampleTargetEnabled) "/tmp/scan2target/scans/scan_job-1.pdf"
          true alwaysFailAttempts 3).outcome =
      ({ sampleJob with
          status := .completed
          message := some
            "Upload failed: Delivery to Office NAS failed after 3 attempts: NT_STATUS_HOST_UNREACHABLE" },
        false) :=
  exhausted_retries_job_completed_artifact_kept "tgt-1"
    "/tmp/scan2target/scans/scan_job-1.pdf" sampleTargetEnabled rfl alwaysFailAttempts
    "NT_STATUS_HOST_UNREACHABLE" "NT_STATUS_HOST_UNREACHABLE" "NT_STATUS_HOST_UNREACHABLE"
    rfl rfl rfl sampleJob

/-- Helper for the feeder-empty run: in batch mode, successful non-empty
pages from `p` through `N` followed at page `N+1` by a device error
recognized as feeder-empty with an empty trailing file end the loop
normally, keeping exactly pages `p..N` on top of those already scanned. -/
theorem scanLoop_adf_empty_run (outcome : Nat → CaptureOutcome) (N : Nat)
    (er : Nat → String) (sz : Nat → Nat)
    (hgood : ∀ i, 1 ≤ i → i ≤ N → outcome i = .finished 0 (er i) (sz i) ∧ 0 < sz i)
    (rc : Int) (e : String) (hrc : rc ≠ 0) (hadf : isAdfEmptyMsg e = true)
    (hN1 : outcome (N + 1) = .finished rc e 0) (hle : N + 1 ≤ 100) :
    ∀ k p scanned, p + k = N + 1 → 1 ≤ p →
      scanLoop true outcome p scanned = .ok (scanned ++ List.range' p k) := by
  intro k
  induction k with
  | zero =>
    intro p scanned hpk hp
    obtain rfl : p = N + 1 := by omega
    rw [scanLoop, hN1]
    simp [hrc, hadf]
  | succ k ih =>
    intro p scanned hpk hp
    have hpN : p ≤ N := by omega
    obtain ⟨hout, hsz⟩ := hgood p hp hpN
    rw [scanLoop, hout]
    have hnotbig : ¬(p + 1 > 100) := by omega
    simp [Nat.pos_iff_ne_zero.mp hsz, hnotbig,
      ih (p + 1) (scanned ++ [p]) (by omega) (by omega), List.range'_succ]

/-- Claim C4, counterexample: with one good page and page 2 failing with
the recognized feeder-empty message `"Error during device I/O"` after a
non-empty (512-byte) partial file was written, the loop keeps the partial
trailing page and the job completes with 2 pages — not with exactly N = 1
pages as the claim states for every such loop. -/
theorem feeder_empty_trailing_page_kept_cex :
    capturePhase true adfPartialTrailOutcome = .ok [1, 2] := by
  have h : isAdfEmptyMsg "scanimage: Error during device I/O" = true := by decide
  simp [capturePhase, scanLoop, adfPartialTrailOutcome, h]

/-- Claim C4 (amended): when pages `1..N` (`N ≥ 1`) each succeed with
non-empty output and the capture of page `N+1` exits with an error whose
message contains a recognized empty-feeder substring leaving an empty
trailing file, the loop terminates normally, the empty trailing file is
discarded, and the job completes with exactly `N` pages.  (If the failing
capture left a non-empty partial file, that page is kept as well, as the
counterexample shows.) -/
theorem feeder_empty_completes_with_n_pages (outcome : Nat → CaptureOutcome)
    (N : Nat) (er : Nat → String) (sz : Nat → Nat)
    (hN : 1 ≤ N) (hle : N + 1 ≤ 100)
    (hgood : ∀ i, 1 ≤ i → i ≤ N → outcome i = .finished 0 (er i) (sz i) ∧ 0 < sz i)
    (rc : Int) (e : String) (hrc : rc ≠ 0) (hadf : isAdfEmptyMsg e = true)
    (hN1 : outcome (N + 1) = .finished rc e 0) :
    capturePhase true outcome = .ok (List.range' 1 N) ∧
    (List.range' 1 N).length = N := by
  have hloop := scanLoop_adf_empty_run outcome N er sz hgood rc e hrc hadf hN1 hle
    N 1 [] (by omega) (le_refl 1)
  obtain ⟨m, rfl⟩ : ∃ m, N = m + 1 := ⟨N - 1, by omega⟩
  refine ⟨?_, by simp⟩
  unfold capturePhase
  rw [hloop]
  simp [List.range'_succ]

/-- Claim C4, witness: the amended statement at the concrete device
behavior with three good 1000-byte pages and a feeder-empty error with an
empty file on page 4 — the job completes with exactly 3 pages. -/
theorem feeder_empty_completes_with_n_pages_witness :
    capturePhase true adfCleanRunOutcome = .ok (List.range' 1 3) ∧
    (List.range' 1 3).length = 3 :=
  feeder_empty_completes_with_n_pages adfCleanRunOutcome 3
    (fun _ => "") (fun _ => 1000) (by omega) (by omega)
    (by intro i h1 h3
        interval_cases i <;> exact ⟨rfl, by simp⟩)
    1 "scanimage: sane_start: Document feeder out of documents"
    (by omega) (by decide) rfl

/-- Claim C5, counterexample: in batch mode, after exactly one page has
been captured, a successful capture producing a zero-byte file on page 2 is
treated as normal loop termination (`.ok [1]`), although the claim says
this should be an error unless more than one page had been captured. -/
theorem empty_file_after_single_page_cex :
    scanLoop true emptyAfterOnePageOutcome 1 [] = .ok [1] := by
  simp [scanLoop, emptyAfterOnePageOutcome]

/-- Claim C5 (amended): a capture invocation that exits successfully with a
zero-byte output file is treated as normal loop termination exactly when
the loop is in batch mode and is past its first page (that is, at least one
page has already been captured); on the first page, or outside batch mode,
it is an error that aborts the job. -/
theorem empty_file_success_termination (batchScan : Bool)
    (outcome : Nat → CaptureOutcome) (p : Nat) (scanned : List Nat) (e : String)
    (h : outcome p = .finished 0 e 0) :
    (batchScan = true ∧ 1 < p → scanLoop batchScan outcome p scanned = .ok scanned) ∧
    (batchScan = false ∨ p ≤ 1 →
      scanLoop batchScan outcome p scanned = .error "Scanner returned empty file") := by
  constructor
  · rintro ⟨hb, hp⟩
    subst hb
    rw [scanLoop, h]
    simp [hp]
  · rintro (hb | hp)
    · subst hb
      rw [scanLoop, h]
      simp
    · rw [scanLoop, h]
      simp [show ¬(1 < p) by omega]

/-- Claim C5, witness: the amended statement applied on page 2 of a batch
run with one page already captured — the zero-byte success ends the loop
normally with the single previously captured page. -/
theorem empty_file_success_termination_witness :
    scanLoop true emptyAfterOnePageOutcome 2 [1] = .ok [1] :=
  (empty_file_success_termination true emptyAfterOnePageOutcome 2 [1] "" rfl).1
    ⟨rfl, by omega⟩

/-- Helper for the page ceiling: any normal exit of the loop from page `p`
keeps at most `101 - p` further pages beyond those already scanned. -/
theorem scanLoop_length_le (batchScan : Bool) (outcome : Nat → CaptureOutcome) :
    ∀ fuel p scanned kept, 101 - p ≤ fuel → p ≤ 100 →
      scanLoop batchScan outcome p scanned = .ok kept →
      kept.length ≤ scanned.length + (101 - p) := by
  intro fuel
  induction fuel with
  | zero =>
    intro p scanned kept h1 h2 _
    omega
  | succ fuel ih =>
    intro p scanned kept h1 h2 heq
    rw [scanLoop] at heq
    repeat' split at heq
    all_goals first
      | (have hrec := ih (p + 1) (scanned ++ [p]) kept (by omega) (by omega) heq
         simp at hrec
         omega)
      | (cases heq
         done)
      | (cases heq
         omega)
      | (cases heq
         simp
         omega)

/-- Claim C10: the manual batch-capture page loop always terminates — it is
embedded as a total function whose termination measure `101 - page_num`
mirrors the source's hard page ceiling — and a normal exit never keeps more
than 100 pages, regardless of the device's behavior on each page. -/
theorem manual_loop_at_most_100_pages (batchScan : Bool)
    (outcome : Nat → CaptureOutcome) (kept : List Nat)
    (h : scanLoop batchScan outcome 1 [] = .ok kept) :
    kept.length ≤ 100 := by
  have := scanLoop_length_le batchScan outcome 101 1 [] kept (by omega) (by omega) h
  simpa using this

/-- Claim C10, witness: the bound applied to a non-batch run that keeps
exactly one page. -/
theorem manual_loop_at_most_100_pages_witness :
    scanLoop false alwaysGoodPageOutcome 1 [] = .ok [1] ∧
    ([1] : List Nat).length ≤ 100 :=
  ⟨by simp [scanLoop, alwaysGoodPageOutcome],
    manual_loop_at_most_100_pages false alwaysGoodPageOutcome [1]
      (by simp [scanLoop, alwaysGoodPageOutcome])⟩

/-- Claim C6: for every submitted unit of work, the Background Worker's
`_execute_task` never propagates the work's exception (it is embedded as a
total function on any work outcome): if the work raises, the job is set to
`failed` with the error message recorded; if it returns, the job is set to
`completed`; and in both cases the task handle for the job id is removed
from the worker's bookkeeping. -/
theorem worker_backstop_terminal_status (jobs : String → Option JobRecord)
    (tasks : List String) (jobId : String) (j : JobRecord)
    (workResult : Except String Unit)
    (h : jobs jobId = some j) (hid : j.id = jobId) :
    (executeTask jobs tasks jobId workResult).1 jobId =
      some (match workResult with
        | .ok _ => { j with status := JobStatus.completed }
        | .error e =>
          { j with status := JobStatus.failed, message := some ("Error: " ++ e) }) ∧
    jobId ∉ (executeTask jobs tasks jobId workResult).2 := by
  subst hid
  cases workResult with
  | ok u =>
    refine ⟨?_, ?_⟩
    · simp [executeTask, updateStore, h]
    · simp [executeTask, List.mem_filter]
  | error e =>
    refine ⟨?_, ?_⟩
    · simp [executeTask, updateStore, h]
    · simp [executeTask, List.mem_filter]

/-- Claim C6, witness: `sampleJob`'s unit of work raises `"boom"`; the
store afterwards holds the job as `failed` with the recorded message and
the task handle is gone. -/
theorem worker_backstop_terminal_status_witness :
    (executeTask sampleStore ["job-1", "job-2"] "job-1" (.error "boom")).1 "job-1" =
      some { sampleJob with
        status := JobStatus.failed
        message := some "Error: boom" } ∧
    "job-1" ∉ (executeTask sampleStore ["job-1", "job-2"] "job-1" (.error "boom")).2 :=
  worker_backstop_terminal_status sampleStore ["job-1", "job-2"] "job-1" sampleJob
    (.error "boom") rfl rfl

/-- Claim C7: `cancel_job` transitions a job to `cancelled` if and only if
its current status is `queued` or `running`; for a job in a terminal state
and for a nonexistent job id it returns `False` and leaves the whole job
store unchanged. -/
theorem cancel_job_iff_queued_or_running (jobs : String → Option JobRecord)
    (jobId : String) :
    ((cancel_job jobs jobId).1 = true ↔
      ∃ j, jobs jobId = some j ∧
        (j.status = JobStatus.queued ∨ j.status = JobStatus.running)) ∧
    ((cancel_job jobs jobId).1 = false → (cancel_job jobs jobId).2 = jobs) ∧
    (∀ j, jobs jobId = some j →
      (j.status = JobStatus.queued ∨ j.status = JobStatus.running) → j.id = jobId →
      (cancel_job jobs jobId).2 jobId =
        some { j with
          status := JobStatus.cancelled
          message := some "Job cancelled by user" }) := by
  rcases h : jobs jobId with _ | j
  · simp [cancel_job, h]
  · by_cases hst : j.status = JobStatus.queued ∨ j.status = JobStatus.running
    · refine ⟨?_, ?_, ?_⟩
      · simp [cancel_job, h, hst]
      · intro hfalse
        simp [cancel_job, h, hst] at hfalse
      · intro j' hj' hst' hid
        obtain rfl : j = j' := by injection hj'
        subst hid
        simp [cancel_job, h, hst, updateStore]
    · refine ⟨?_, ?_, ?_⟩
      · simp only [cancel_job, h, hst, if_neg]
        simp [hst]
      · intro _
        simp [cancel_job, h, hst]
      · intro j' hj' hst' hid
        obtain rfl : j = j' := by injection hj'
        exact absurd hst' hst

/-- Claim C7, witness: cancelling the `running` job `job-1` in the sample
store succeeds and writes `cancelled`; the rejection half is instantiated
vacuously. -/
theorem cancel_job_iff_queued_or_running_witness :
    ((cancel_job sampleStore "job-1").1 = true ↔
      ∃ j, sampleStore "job-1" = some j ∧
        (j.status = JobStatus.queued ∨ j.status = JobStatus.running)) ∧
    ((cancel_job sampleStore "job-1").1 = false →
      (cancel_job sampleStore "job-1").2 = sampleStore) ∧
    (∀ j, sampleStore "job-1" = some j →
      (j.status = JobStatus.queued ∨ j.status = JobStatus.running) → j.id = "job-1" →
      (cancel_job sampleStore "job-1").2 "job-1" =
        some { j with
          status := JobStatus.cancelled
          message := some "Job cancelled by user" }) :=
  cancel_job_iff_queued_or_running sampleStore "job-1"

/-- Claim C9: `thumbnail_path` is NOT among the persisted job fields — the
`jobs` table of `app/core/database.py` has no such column, the
`JobRepository.update` SET clause omits it and `JobRepository.get` rebuilds
the record without it.  Storing a job that carries a thumbnail path and
loading it back returns the other nine listed fields intact but
`thumbnail_path = None`, although `_execute_scan` sets the field before
calling `update_job` and the thumbnail API endpoint reads it back — the
claim (and the spec's persisted-field list) states the intent, the code
drops the value. -/
theorem thumbnail_path_not_persisted :
    JobRepository.get
        (JobRepository.update (JobRepository.create thumbJob) thumbJob
          "2026-01-01T00:05:00") =
      some { thumbJob with
        thumbnail_path := none
        updated_at := "2026-01-01T00:05:00" } ∧
    thumbJob.thumbnail_path = some "/tmp/scan2target/scans/scan_job-1_thumb.jpg" := by
  exact ⟨rfl, rfl⟩

end Scan2Target
